import Mathlib

/-!
Verification of the e-commerce backend route handlers.

This file gives a shallow embedding, in Lean 4, of the business logic of the
checkout engine (src/app/api/orders/route.ts, POST), the cart ledger
(src/app/api/cart/route.ts and src/app/api/cart/clear/route.ts), the category
reparenting guard (src/app/api/categories/[id]/route.ts, PATCH), the order
status transitions (src/app/api/orders/route.ts PATCH and
src/app/api/orders/[id]/route.ts PATCH), the wishlist discount computation
(src/app/api/wishlist/route.ts, GET) and the product creation validation
(products POST handler).

Modelling conventions:
- JavaScript numbers are modelled as rationals (ℚ) for prices and money
  amounts, and as integers for quantities and stock counts (INTEGER columns
  in the schema); timestamps as integers.
- Database rows are records; tables are lists of records; a Prisma
  transaction is a pure function from the pre-state to the post-state, so
  atomicity is by construction.
- Fallible handlers return Except with an error type mirroring the distinct
  error responses of the route.
- JavaScript truthiness tests on optional strings and numbers are modelled
  explicitly (none, the empty string and 0 are falsy).
-/

namespace ECommerce

/-- Order status values used by the routes. -/
inductive OrderStatus
  | PENDING
  | PROCESSING
  | SHIPPED
  | DELIVERED
  | CANCELLED
deriving DecidableEq, Repr

namespace Checkout

/-- Inventory movement kinds, from the Prisma enum on InventoryLog. -/
inductive LogType
  | STOCK_IN
  | STOCK_OUT
  | ADJUSTMENT
  | RETURN
deriving DecidableEq, Repr

/-- One row of the InventoryLog table. -/
structure InventoryLog where
  id : String
  productId : String
  type : LogType
  quantity : Int
deriving DecidableEq, Repr

/-- A product row as fetched by the checkout route, with the inventoryLogs
relation included (a snapshot of the log rows of this product). -/
structure Product where
  id : String
  name : String
  price : ℚ
  stock : Int
  inventoryLogs : List InventoryLog
deriving DecidableEq, Repr

/-- A cart line item as fetched by the checkout route, with the product
relation included. -/
structure CartItem where
  id : String
  productId : String
  quantity : Int
  priceAtTime : ℚ
  product : Product
deriving DecidableEq, Repr

/-- The cart row of the requesting user, with its items included. -/
structure Cart where
  id : String
  items : List CartItem
  total : ℚ
deriving DecidableEq, Repr

/-- Coupon discount kinds, from the Prisma enum on Coupon. -/
inductive DiscountType
  | PERCENTAGE
  | FIXED
  | FREE_SHIPPING
deriving DecidableEq, Repr

/-- A coupon row. expiresAt and minPurchase are nullable columns. -/
structure Coupon where
  id : String
  code : String
  isActive : Bool
  expiresAt : Option Int
  minPurchase : Option ℚ
  discountType : DiscountType
  discountValue : ℚ
deriving DecidableEq, Repr

/-- An order line item created by checkout (orders/route.ts lines 195-199):
the captured price is the current product price. -/
structure OrderItem where
  productId : String
  quantity : Int
  price : ℚ
deriving DecidableEq, Repr

/-- The order record created by checkout (orders/route.ts lines 181-216),
restricted to the fields the claims are about. -/
structure Order where
  status : OrderStatus
  subtotal : ℚ
  discount : ℚ
  tax : ℚ
  shippingFee : ℚ
  total : ℚ
  items : List OrderItem
deriving DecidableEq, Repr

/-- The persistent state the checkout route touches: the product table, the
InventoryLog table, and the requesting user cart. -/
structure Db where
  products : List Product
  logs : List InventoryLog
  cart : Cart
deriving DecidableEq, Repr

/-- One entry of the outOfStockItems payload (orders/route.ts lines 94-99). -/
structure OutOfStockItem where
  productId : String
  name : String
  requested : Int
  available : Int
deriving DecidableEq, Repr

/-- The distinct error responses of the checkout route. -/
inductive CheckoutError
  | emptyCart
  | outOfStock (items : List OutOfStockItem)
  | minPurchaseRequired (minPurchase : ℚ)
deriving DecidableEq, Repr

/-- Current stock of a product computed from its inventory logs
(orders/route.ts lines 85-91): STOCK_IN adds the quantity, every other log
type subtracts it. -/
def currentStock (logs : List InventoryLog) : Int :=
  logs.foldl
    (fun sum log =>
      if log.type = LogType.STOCK_IN then sum + log.quantity
      else sum - log.quantity)
    0

/-- The violation record built for a cart item whose requested quantity
exceeds the computed stock (orders/route.ts lines 94-99). -/
def mkOutOfStockItem (item : CartItem) : OutOfStockItem :=
  { productId := item.productId
    name := item.product.name
    requested := item.quantity
    available := currentStock item.product.inventoryLogs }

/-- The outOfStockItems list collected by the validation loop
(orders/route.ts lines 82-101): every cart item whose quantity exceeds the
log-derived stock, in cart order. -/
def outOfStockItems (items : List CartItem) : List OutOfStockItem :=
  items.filterMap (fun item =>
    if item.quantity > currentStock item.product.inventoryLogs then
      some (mkOutOfStockItem item)
    else none)

/-- Cart subtotal (orders/route.ts lines 131-135). The JavaScript expression
(item.priceAtTime || item.product.price) falls back to the product price when
priceAtTime is 0 (falsy). -/
def cartSubtotal (items : List CartItem) : ℚ :=
  items.foldl
    (fun sum item =>
      sum + (if item.priceAtTime = 0 then item.product.price else item.priceAtTime)
              * (item.quantity : ℚ))
    0

/-- The where-clause of the coupon lookup (orders/route.ts lines 142-157):
matching code, active, not expired (expiresAt ≥ now or null), and meeting the
minimum purchase (minPurchase ≤ subtotal or null). -/
def couponMatches (code : String) (now : Int) (subtotal : ℚ) (c : Coupon) : Bool :=
  c.code == code && c.isActive
    && (match c.expiresAt with
        | some t => decide (now ≤ t)
        | none => true)
    && (match c.minPurchase with
        | some m => decide (m ≤ subtotal)
        | none => true)

/-- The guard of the minimum purchase error branch (orders/route.ts line 160).
The JavaScript test (coupon.minPurchase && subtotal < coupon.minPurchase) is
falsy when minPurchase is null or 0. -/
def minPurchaseBlocks (c : Coupon) (subtotal : ℚ) : Bool :=
  match c.minPurchase with
  | some m => decide (m ≠ 0) && decide (subtotal < m)
  | none => false

/-- Discount amount of an applied coupon (orders/route.ts lines 166-169). -/
def couponDiscount (c : Coupon) (subtotal : ℚ) : ℚ :=
  if c.discountType = DiscountType.PERCENTAGE then
    subtotal * c.discountValue / 100
  else
    min c.discountValue subtotal

/-- The inventory update of the checkout transaction for one cart line
(orders/route.ts lines 219-235): find the first InventoryLog row of the
product and, if one exists, decrement its quantity field by the ordered
quantity. No row is created when none exists, and the product row itself is
not touched. -/
def decrementFirstLog (logs : List InventoryLog) (productId : String) (qty : Int) :
    List InventoryLog :=
  match logs.find? (fun l => l.productId == productId) with
  | none => logs
  | some found =>
      logs.map (fun l =>
        if l.id == found.id then { l with quantity := l.quantity - qty } else l)

/-- The whole inventory update loop of the checkout transaction, one
decrement per cart line, in cart order. -/
def applyInventoryDecrements (logs : List InventoryLog) (items : List CartItem) :
    List InventoryLog :=
  items.foldl (fun ls item => decrementFirstLog ls item.productId item.quantity) logs

/-- Result of a successful checkout: the created order and the post-state. -/
structure CheckoutResult where
  order : Order
  db : Db
deriving DecidableEq, Repr

/-- The tail of the checkout handler after the discount has been determined
(orders/route.ts lines 173-243): totals (tax and shipping fee are the
constant 0 in the source), the order created with status PENDING and one
item per cart line capturing the current product price, the transaction that
decrements the first inventory log per line and deletes all cart items. The
cart total column is not written by the transaction. -/
def finishCheckout (db : Db) (discountAmount : ℚ) : CheckoutResult :=
  let subtotal := cartSubtotal db.cart.items
  let total := subtotal - discountAmount
  let shippingFee : ℚ := 0
  let tax : ℚ := 0
  let grandTotal := total + shippingFee + tax
  { order :=
      { status := OrderStatus.PENDING
        subtotal := subtotal
        discount := discountAmount
        tax := tax
        shippingFee := shippingFee
        total := grandTotal
        items := db.cart.items.map (fun item =>
          { productId := item.productId
            quantity := item.quantity
            price := item.product.price }) }
    db :=
      { products := db.products
        logs := applyInventoryDecrements db.logs db.cart.items
        cart := { db.cart with items := [] } } }

/-- The checkout handler (orders/route.ts POST, lines 34-257): empty cart
check, stock validation collecting all violations, subtotal, optional coupon
lookup and discount, then the order-creating transaction. The coupon block
is guarded by JavaScript truthiness of couponCode (line 141), so both an
absent couponCode and the empty string skip the lookup and leave the
discount at 0. -/
def checkout (db : Db) (coupons : List Coupon) (couponCode : Option String)
    (now : Int) : Except CheckoutError CheckoutResult :=
  if db.cart.items.isEmpty then
    .error .emptyCart
  else if (outOfStockItems db.cart.items).isEmpty then
    match couponCode with
    | none => .ok (finishCheckout db 0)
    | some code =>
        if code = "" then .ok (finishCheckout db 0)
        else
          match coupons.find? (couponMatches code now (cartSubtotal db.cart.items)) with
          | none => .ok (finishCheckout db 0)
          | some c =>
              if minPurchaseBlocks c (cartSubtotal db.cart.items) then
                .error (.minPurchaseRequired ((c.minPurchase).getD 0))
              else
                .ok (finishCheckout db (couponDiscount c (cartSubtotal db.cart.items)))
  else
    .error (.outOfStock (outOfStockItems db.cart.items))

/-- The persistent state after a checkout attempt: the transaction post-state
on success, the unchanged pre-state on any error response. -/
def checkoutDb (db : Db) (coupons : List Coupon) (couponCode : Option String)
    (now : Int) : Db :=
  match checkout db coupons couponCode now with
  | .ok r => r.db
  | .error _ => db

end Checkout

namespace CartApi

/-- A product row as used by the cart routes. -/
structure Product where
  id : String
  name : String
  price : ℚ
  stock : Int
  isActive : Bool
deriving DecidableEq, Repr

/-- A cart line item with the product relation included, as the PUT and
DELETE handlers fetch it. -/
structure CartItem where
  id : String
  productId : String
  quantity : Int
  priceAtTime : ℚ
  product : Product
deriving DecidableEq, Repr

/-- The cart row of the requesting user, with all of its items. -/
structure Cart where
  id : String
  items : List CartItem
  total : ℚ
deriving DecidableEq, Repr

/-- The distinct error responses of the cart routes. -/
inductive CartError
  | productNotFound
  | insufficientStock
  | insufficientStockForRequested
  | invalidQuantity
  | itemNotFound
deriving DecidableEq, Repr

/-- Sum of priceAtTime times quantity over the line items, as recomputed by
the cart GET handler (cart/route.ts lines 61-63). -/
def itemsTotal (items : List CartItem) : ℚ :=
  items.foldl (fun sum item => sum + item.priceAtTime * (item.quantity : ℚ)) 0

/-- The add-item handler (cart/route.ts POST, lines 80-179). The product
argument is the result of the findUnique lookup filtered on isActive, so
none covers both a missing and an inactive product. When the product is
already in the cart the line quantity is incremented, otherwise a new line
is created at the current product price; in both branches the stored total
is incremented by the current product price times the added quantity. -/
def addToCart (cart : Cart) (product : Option Product) (quantity : Int)
    (newItemId : String) : Except CartError Cart :=
  match product with
  | none => .error .productNotFound
  | some p =>
      if p.stock < quantity then .error .insufficientStock
      else
        match cart.items.find? (fun it => it.productId == p.id) with
        | some existingItem =>
            let newQuantity := existingItem.quantity + quantity
            if p.stock < newQuantity then .error .insufficientStockForRequested
            else .ok { cart with
              items := cart.items.map (fun it =>
                if it.id == existingItem.id then { it with quantity := newQuantity }
                else it)
              total := cart.total + p.price * (quantity : ℚ) }
        | none => .ok { cart with
            items := cart.items ++ [{ id := newItemId
                                      productId := p.id
                                      quantity := quantity
                                      priceAtTime := p.price
                                      product := p }]
            total := cart.total + p.price * (quantity : ℚ) }

/-- The remove-item handler (cart/route.ts DELETE, lines 262-320): the first
line with the given product id is deleted and its priceAtTime times quantity
is subtracted from the total, floored at 0. -/
def removeFromCart (cart : Cart) (productId : String) : Except CartError Cart :=
  match cart.items.find? (fun it => it.productId == productId) with
  | none => .error .itemNotFound
  | some cartItem =>
      .ok { cart with
        items := cart.items.filter (fun it => it.id != cartItem.id)
        total := max 0 (cart.total - cartItem.priceAtTime * (cartItem.quantity : ℚ)) }

/-- The set-quantity handler (cart/route.ts PUT, lines 181-260): negative
quantity is rejected, quantity 0 delegates to the remove handler, otherwise
the line quantity is replaced and the total adjusted by the signed delta
times the line priceAtTime. -/
def updateCartQuantity (cart : Cart) (productId : String) (quantity : Int) :
    Except CartError Cart :=
  if quantity < 0 then .error .invalidQuantity
  else
    match cart.items.find? (fun it => it.productId == productId) with
    | none => .error .itemNotFound
    | some cartItem =>
        if quantity = 0 then removeFromCart cart productId
        else if cartItem.product.stock < quantity then .error .insufficientStock
        else .ok { cart with
          items := cart.items.map (fun it =>
            if it.id == cartItem.id then { it with quantity := quantity } else it)
          total := cart.total
            + ((quantity : ℚ) - (cartItem.quantity : ℚ)) * cartItem.priceAtTime }

/-- The clear handler (cart/clear/route.ts DELETE, lines 33-45): all line
items deleted and the total reset to 0. -/
def clearCart (cart : Cart) : Cart :=
  { cart with items := [], total := 0 }

end CartApi

namespace Categories

/-- A category row: self-referential tree via parentId. -/
structure Category where
  id : String
  name : String
  slug : String
  parentId : Option String
  isActive : Bool
deriving DecidableEq, Repr

/-- The findUnique lookup by id over the category table. -/
def findCategory (cats : List Category) (id : String) : Option Category :=
  cats.find? (fun c => c.id == id)

/-- The circular-reference while loop (categories/[id]/route.ts lines
78-93), walking parent pointers upward from the proposed parent. The source
loop has no bound; the fuel argument makes the model total, and a run that
exhausts its fuel corresponds to a loop that has not yet terminated. The
step (parent?.parentId || null) is the bind on the optional lookup. -/
def walkFindsTarget (cats : List Category) (target : String) :
    Option String → Nat → Bool
  | none, _ => false
  | some _, 0 => false
  | some pid, fuel + 1 =>
      if pid == target then true
      else walkFindsTarget cats target ((findCategory cats pid).bind Category.parentId) fuel

/-- The parent reached after k upward steps from a starting pointer,
following the same step function as the while loop. -/
def nthParent (cats : List Category) : Option String → Nat → Option String
  | start, 0 => start
  | none, _ + 1 => none
  | some pid, k + 1 => nthParent cats ((findCategory cats pid).bind Category.parentId) k

/-- The distinct error responses of the category PATCH handler that the
reparenting claim concerns. -/
inductive CategoryError
  | notFound
  | ownParent
  | circularReference
deriving DecidableEq, Repr

/-- The update applied by the PATCH handler: the target row gets the new
parent pointer (categories/[id]/route.ts lines 106-116, restricted to the
parentId field). -/
def applyParent (cats : List Category) (categoryId : String) (pid : Option String) :
    List Category :=
  cats.map (fun c => if c.id == categoryId then { c with parentId := pid } else c)

/-- The PATCH handler restricted to reparenting (categories/[id]/route.ts
lines 49-133): existence check, the own-parent guard (line 73), the
circular-reference walk guarded by JavaScript truthiness of data.parentId
(line 78; the empty string is falsy), then the update. A payload of none
models a request without a parentId field, which changes no parent. -/
def patchCategoryParent (cats : List Category) (categoryId : String)
    (payload : Option String) (fuel : Nat) : Except CategoryError (List Category) :=
  match findCategory cats categoryId with
  | none => .error .notFound
  | some _ =>
      if payload == some categoryId then .error .ownParent
      else
        match payload with
        | some pid =>
            if pid ≠ "" && walkFindsTarget cats categoryId (some pid) fuel then
              .error .circularReference
            else .ok (applyParent cats categoryId (some pid))
        | none => .ok cats

/-- The category table after a PATCH attempt: updated on success, unchanged
on any error response. -/
def patchResultTree (cats : List Category) (categoryId : String)
    (payload : Option String) (fuel : Nat) : List Category :=
  match patchCategoryParent cats categoryId payload fuel with
  | .ok cs => cs
  | .error _ => cats

end Categories

namespace Orders

/-- An order row restricted to the fields the status-transition claims are
about. -/
structure OrderRecord where
  id : String
  status : OrderStatus
  shippedAt : Option Int
  deliveredAt : Option Int
  cancelledAt : Option Int
  trackingNumber : Option String
  carrier : Option String
  adminNotes : Option String
deriving DecidableEq, Repr

/-- The bulk status-update handler (orders/route.ts PATCH, lines 358-379).
Prisma skips fields whose value is undefined, so trackingNumber and carrier
update only when present; the notes spread (notes && ...) fires only on a
truthy string; each status-specific timestamp spread fires exactly when the
new status equals that state. -/
def updateOrderStatusBulk (o : OrderRecord) (status : OrderStatus)
    (trackingNumber carrier notes : Option String) (now : Int) : OrderRecord :=
  { o with
    status := status
    trackingNumber := (match trackingNumber with
      | some t => some t
      | none => o.trackingNumber)
    carrier := (match carrier with
      | some c => some c
      | none => o.carrier)
    adminNotes := (match notes with
      | some n => if n = "" then o.adminNotes else some n
      | none => o.adminNotes)
    shippedAt := if status = OrderStatus.SHIPPED then some now else o.shippedAt
    deliveredAt := if status = OrderStatus.DELIVERED then some now else o.deliveredAt
    cancelledAt := if status = OrderStatus.CANCELLED then some now else o.cancelledAt }

/-- The per-order status-update handler (orders/[id]/route.ts PATCH, lines
121-145). The spreads set shippedAt on SHIPPED and deliveredAt on
DELIVERED; there is no cancelledAt spread in this handler. The
trackingNumber and carrier spreads fire only on truthy strings. -/
def updateOrderStatusById (o : OrderRecord) (status : OrderStatus)
    (trackingNumber carrier : Option String) (now : Int) : OrderRecord :=
  { o with
    status := status
    trackingNumber := (match trackingNumber with
      | some t => if t = "" then o.trackingNumber else some t
      | none => o.trackingNumber)
    carrier := (match carrier with
      | some c => if c = "" then o.carrier else some c
      | none => o.carrier)
    shippedAt := if status = OrderStatus.SHIPPED then some now else o.shippedAt
    deliveredAt := if status = OrderStatus.DELIVERED then some now else o.deliveredAt }

end Orders

namespace Wishlist

/-- A product row restricted to the fields the wishlist discount computation
reads. -/
structure Product where
  id : String
  name : String
  price : ℚ
  originalPrice : ℚ
deriving DecidableEq, Repr

/-- A wishlist line item with its product. -/
structure WishlistItem where
  id : String
  productId : String
  product : Product
deriving DecidableEq, Repr

/-- The per-item discount computation of the wishlist GET handler
(wishlist/route.ts lines 208-226): when originalPrice > 0 and
originalPrice > price, the rounded percentage saved, else 0. Math.round on
a finite value is floor of the value plus one half, which is Mathlib round
on rationals. -/
def productDiscount (product : Product) : ℤ :=
  if product.originalPrice > 0 ∧ product.originalPrice > product.price then
    round ((product.originalPrice - product.price) / product.originalPrice * 100)
  else 0

/-- The mapping the GET handler applies to the fetched page of wishlist
items, pairing each item with its computed discount. -/
def itemsWithDiscount (items : List WishlistItem) : List (WishlistItem × ℤ) :=
  items.map (fun item => (item, productDiscount item.product))

end Wishlist

namespace Products

/-- The request body of the product-creation handler, restricted to the four
validated fields; none models an absent (undefined) field. -/
structure ProductCreateData where
  name : Option String
  price : Option ℚ
  stock : Option ℚ
  categoryId : Option String
deriving DecidableEq, Repr

/-- JavaScript truthiness of an optional string: undefined and the empty
string are falsy. -/
def jsTruthyString (s : Option String) : Bool :=
  match s with
  | none => false
  | some v => v ≠ ""

/-- JavaScript truthiness of an optional number: undefined and 0 are falsy. -/
def jsTruthyNumber (q : Option ℚ) : Bool :=
  match q with
  | none => false
  | some v => v ≠ 0

/-- The field-level error map of the validation failure response. -/
structure ValidationErrors where
  name : Option String
  price : Option String
  stock : Option String
  categoryId : Option String
deriving DecidableEq, Repr

/-- The basic validation guard of the product-creation handler (products
POST, lines 516-526 of the concatenated orders route file): the request is
rejected when any of the four fields is falsy, and the error map entries for
price and stock are only added when the field is undefined, while the
entries for name and categoryId are added whenever the field is falsy. -/
def validateProduct (d : ProductCreateData) : Option ValidationErrors :=
  if jsTruthyString d.name && jsTruthyNumber d.price && jsTruthyNumber d.stock
      && jsTruthyString d.categoryId then
    none
  else
    some { name := if jsTruthyString d.name then none else some "Name is required"
           price := if d.price = none then some "Price is required" else none
           stock := if d.stock = none then some "Stock is required" else none
           categoryId := if jsTruthyString d.categoryId then none
                         else some "Category is required" }

/-- The product-creation handler up to the store write: a validation failure
returns the error map before any access to the product store; on success the
row is appended. -/
def createProduct (products : List ProductCreateData) (d : ProductCreateData) :
    Except ValidationErrors (List ProductCreateData) :=
  match validateProduct d with
  | some errs => .error errs
  | none => .ok (products ++ [d])

/-- The product store after a creation attempt: appended on success,
unchanged on a validation failure. -/
def productsAfterCreate (products : List ProductCreateData)
    (d : ProductCreateData) : List ProductCreateData :=
  match createProduct products d with
  | .ok ps => ps
  | .error _ => products

end Products

namespace Checkout

/-- Example inventory log row: 5 units stocked in for product p1. -/
def exLog : InventoryLog :=
  { id := "l1", productId := "p1", type := LogType.STOCK_IN, quantity := 5 }

/-- Example product: price 100, stock column 5, one STOCK_IN log of 5. -/
def exProduct : Product :=
  { id := "p1", name := "P", price := 100, stock := 5, inventoryLogs := [exLog] }

/-- Example cart line: 2 units of p1 at priceAtTime 100. -/
def exItem : CartItem :=
  { id := "c1", productId := "p1", quantity := 2, priceAtTime := 100,
    product := exProduct }

/-- Example cart holding the 2-unit line, stored total 200. -/
def exCart : Cart :=
  { id := "cart1", items := [exItem], total := 200 }

/-- Example checkout pre-state for the sufficient-stock scenario. -/
def exDb : Db :=
  { products := [exProduct], logs := [exLog], cart := exCart }

/-- Example active percentage coupon of value 10 with no expiry and no
minimum purchase. -/
def exCouponPct : Coupon :=
  { id := "cp1", code := "SAVE10", isActive := true, expiresAt := none,
    minPurchase := none, discountType := DiscountType.PERCENTAGE,
    discountValue := 10 }

/-- Example active fixed coupon of value 5. -/
def exCouponFixed : Coupon :=
  { id := "cp2", code := "LESS5", isActive := true, expiresAt := none,
    minPurchase := none, discountType := DiscountType.FIXED,
    discountValue := 5 }

/-- Example log giving product p2 only 1 unit of stock. -/
def exLogLow : InventoryLog :=
  { id := "l2", productId := "p2", type := LogType.STOCK_IN, quantity := 1 }

/-- Example product with only 1 unit available. -/
def exProductLow : Product :=
  { id := "p2", name := "Q", price := 40, stock := 1, inventoryLogs := [exLogLow] }

/-- Example cart line requesting 2 units of the 1-unit product. -/
def exItemOver : CartItem :=
  { id := "c2", productId := "p2", quantity := 2, priceAtTime := 40,
    product := exProductLow }

/-- Example cart whose single line exceeds the available stock. -/
def exCartOver : Cart :=
  { id := "cart2", items := [exItemOver], total := 80 }

/-- Example checkout pre-state for the out-of-stock scenario. -/
def exDbOver : Db :=
  { products := [exProductLow], logs := [exLogLow], cart := exCartOver }

end Checkout

namespace CartApi

/-- Example product for the cart routes: price 100, stock 10, active. -/
def exCartProduct : Product :=
  { id := "p1", name := "P", price := 100, stock := 10, isActive := true }

/-- The same product after a price drop to 50. -/
def exCartProductCheap : Product :=
  { id := "p1", name := "P", price := 50, stock := 10, isActive := true }

/-- Example cart with one line of 1 unit captured at priceAtTime 100; the
stored total 100 equals the line sum. -/
def exCartFix : Cart :=
  { id := "cart1"
    items := [{ id := "i1", productId := "p1", quantity := 1, priceAtTime := 100,
                product := exCartProduct }]
    total := 100 }

end CartApi

namespace Categories

/-- Example root category a. -/
def exCatA : Category :=
  { id := "a", name := "A", slug := "a", parentId := none, isActive := true }

/-- Example category b whose parent is a. -/
def exCatB : Category :=
  { id := "b", name := "B", slug := "b", parentId := some "a", isActive := true }

/-- Example category table: b is a child of a. -/
def exCatTable : List Category := [exCatA, exCatB]

end Categories

namespace Orders

/-- Example pending order with no timestamps set. -/
def exOrder : OrderRecord :=
  { id := "o1", status := OrderStatus.PENDING, shippedAt := none,
    deliveredAt := none, cancelledAt := none, trackingNumber := none,
    carrier := none, adminNotes := none }

end Orders

namespace Wishlist

/-- Example product listed free (price 0) against an original price of 50. -/
def exFreeProduct : Product :=
  { id := "w1", name := "W", price := 0, originalPrice := 50 }

/-- Example wishlist item for the free product. -/
def exFreeItem : WishlistItem :=
  { id := "wi1", productId := "w1", product := exFreeProduct }

/-- Example discounted product: original price 50, current price 40. -/
def exSaleProduct : Product :=
  { id := "w2", name := "V", price := 40, originalPrice := 50 }

/-- Example wishlist item for the discounted product. -/
def exSaleItem : WishlistItem :=
  { id := "wi2", productId := "w2", product := exSaleProduct }

end Wishlist

namespace Products

/-- Example creation payload whose price is supplied as 0. -/
def exZeroPrice : ProductCreateData :=
  { name := some "X", price := some 0, stock := some 3, categoryId := some "c1" }

/-- Example creation payload whose stock is supplied as 0. -/
def exZeroStock : ProductCreateData :=
  { name := some "X", price := some 10, stock := some 0, categoryId := some "c1" }

end Products

namespace Checkout

theorem outOfStockItems_nil_iff (items : List CartItem) :
    outOfStockItems items = [] ↔
      ∀ i ∈ items, i.quantity ≤ currentStock i.product.inventoryLogs := by
  unfold outOfStockItems
  rw [List.filterMap_eq_nil_iff]
  constructor
  · intro h i hi
    by_contra hq
    push_neg at hq
    have := h i hi
    rw [if_pos hq] at this
    exact Option.some_ne_none _ this
  · intro h i hi
    rw [if_neg (not_lt.mpr (h i hi))]

theorem mem_outOfStockItems_iff (items : List CartItem) (i : CartItem)
    (hi : i ∈ items) :
    mkOutOfStockItem i ∈ outOfStockItems items ↔
      currentStock i.product.inventoryLogs < i.quantity := by
  constructor
  · intro hmem
    rcases List.mem_filterMap.mp hmem with ⟨j, hj, hje⟩
    by_cases hq : j.quantity > currentStock j.product.inventoryLogs
    · rw [if_pos hq] at hje
      have hje2 := Option.some.inj hje
      simp only [mkOutOfStockItem, OutOfStockItem.mk.injEq] at hje2
      rw [← hje2.2.2.1, ← hje2.2.2.2]
      exact hq
    · rw [if_neg hq] at hje
      exact absurd hje (Option.noConfusion)
  · intro hq
    exact List.mem_filterMap.mpr ⟨i, hi, by rw [if_pos hq]⟩

/-- C2: checkout of a cart in which at least one line item requests more
than the log-derived available stock fails with the out-of-stock error, the
error payload lists exactly the violating line items (a line is listed iff
it violates, not just the first one), and the persistent state is unchanged
(no order, no inventory write, cart untouched). -/
theorem checkout_outOfStock_complete
    (db : Db) (coupons : List Coupon) (couponCode : Option String) (now : Int)
    (h : ∃ i ∈ db.cart.items, currentStock i.product.inventoryLogs < i.quantity) :
    checkout db coupons couponCode now
        = .error (.outOfStock (outOfStockItems db.cart.items))
      ∧ (∀ i ∈ db.cart.items,
            (currentStock i.product.inventoryLogs < i.quantity ↔
              mkOutOfStockItem i ∈ outOfStockItems db.cart.items))
      ∧ checkoutDb db coupons couponCode now = db := by
  obtain ⟨i0, hi0, hq0⟩ := h
  have hne : db.cart.items ≠ [] := by
    intro hnil
    rw [hnil] at hi0
    exact absurd hi0 (List.not_mem_nil i0)
  have h1 : db.cart.items.isEmpty = false := by
    simp [List.isEmpty_iff, hne]
  have h2 : (outOfStockItems db.cart.items).isEmpty = false := by
    rw [Bool.eq_false_iff]
    intro htrue
    have hnil := List.isEmpty_iff.mp htrue
    exact absurd hq0 (not_lt.mpr ((outOfStockItems_nil_iff _).mp hnil i0 hi0))
  have hck : checkout db coupons couponCode now
      = .error (.outOfStock (outOfStockItems db.cart.items)) := by
    unfold checkout
    rw [h1, h2]
    rfl
  refine ⟨hck, ?_, ?_⟩
  · intro i hi
    exact (mem_outOfStockItems_iff db.cart.items i hi).symm
  · unfold checkoutDb
    rw [hck]

/-- Witness for C2 at the concrete out-of-stock scenario. -/
theorem checkout_outOfStock_complete_witness :
    checkout exDbOver [] none 0
        = .error (.outOfStock (outOfStockItems exDbOver.cart.items))
      ∧ (∀ i ∈ exDbOver.cart.items,
            (currentStock i.product.inventoryLogs < i.quantity ↔
              mkOutOfStockItem i ∈ outOfStockItems exDbOver.cart.items))
      ∧ checkoutDb exDbOver [] none 0 = exDbOver :=
  checkout_outOfStock_complete exDbOver [] none 0
    ⟨exItemOver, by decide, by decide⟩

theorem minPurchaseBlocks_eq_false_of_matches
    (code : String) (now : Int) (subtotal : ℚ) (c : Coupon)
    (h : couponMatches code now subtotal c = true) :
    minPurchaseBlocks c subtotal = false := by
  unfold couponMatches at h
  unfold minPurchaseBlocks
  cases hm : c.minPurchase with
  | none => rfl
  | some m =>
      rw [hm] at h
      simp only [Bool.and_eq_true, decide_eq_true_eq] at h
      have hle : m ≤ subtotal := h.2
      have hlt : decide (subtotal < m) = false := decide_eq_false (not_lt.mpr hle)
      simp [hlt]

/-- C9: the minimum-purchase error branch of the checkout handler is
unreachable; no input makes checkout return that error, because the coupon
lookup itself filters on minPurchase at most the subtotal or null. -/
theorem checkout_no_minPurchase_error
    (db : Db) (coupons : List Coupon) (couponCode : Option String) (now : Int)
    (m : ℚ) :
    checkout db coupons couponCode now ≠ .error (.minPurchaseRequired m) := by
  unfold checkout
  split
  · simp
  · split
    · split
      · simp
      · split
        · simp
        · split
          · simp
          · rename_i c hfound
            split
            · rename_i hblocks
              have hmatch := List.find?_some hfound
              rw [minPurchaseBlocks_eq_false_of_matches _ _ _ _ hmatch] at hblocks
              exact absurd hblocks (by simp)
            · simp
    · simp

/-- Witness for C9 at a concrete input. -/
theorem checkout_no_minPurchase_error_witness :
    checkout exDb [exCouponPct] (some "SAVE10") 0
      ≠ .error (.minPurchaseRequired 50) :=
  checkout_no_minPurchase_error exDb [exCouponPct] (some "SAVE10") 0 50

theorem find?_map_eq_of_fix {α : Type} (g : α → α) (p : α → Bool) (l : List α)
    (hp : ∀ a, p (g a) = p a) (hfix : ∀ a ∈ l, p a = true → g a = a) :
    (l.map g).find? p = l.find? p := by
  induction l with
  | nil => rfl
  | cons a t ih =>
      rw [List.map_cons]
      by_cases hpa : p a = true
      · rw [List.find?_cons_of_pos _ (by rw [hp a]; exact hpa),
          List.find?_cons_of_pos _ hpa, hfix a (List.mem_cons_self a t) hpa]
      · have hpa2 : ¬ p (g a) = true := by rw [hp a]; exact hpa
        rw [List.find?_cons_of_neg _ hpa2, List.find?_cons_of_neg _ hpa]
        exact ih (fun b hb hpb => hfix b (List.mem_cons_of_mem a hb) hpb)

theorem decrementFirstLog_map_id (logs : List InventoryLog) (pid : String)
    (q : Int) :
    (decrementFirstLog logs pid q).map InventoryLog.id
      = logs.map InventoryLog.id := by
  unfold decrementFirstLog
  cases hf : logs.find? (fun l => l.productId == pid) with
  | none => rfl
  | some found =>
      rw [List.map_map]
      apply List.map_congr_left
      intro a _
      simp only [Function.comp]
      split <;> rfl

theorem decrementFirstLog_nodup_id (logs : List InventoryLog) (pid : String)
    (q : Int) (hids : (logs.map InventoryLog.id).Nodup) :
    ((decrementFirstLog logs pid q).map InventoryLog.id).Nodup := by
  rw [decrementFirstLog_map_id]
  exact hids

theorem find?_decrementFirstLog_ne (logs : List InventoryLog)
    (pid pid2 : String) (q : Int)
    (hids : (logs.map InventoryLog.id).Nodup) (hne : pid2 ≠ pid) :
    (decrementFirstLog logs pid q).find? (fun l => l.productId == pid2)
      = logs.find? (fun l => l.productId == pid2) := by
  unfold decrementFirstLog
  cases hf : logs.find? (fun l => l.productId == pid) with
  | none => rfl
  | some found =>
      have hfmem : found ∈ logs := List.mem_of_find?_eq_some hf
      have hfpid : found.productId = pid := by
        simpa using List.find?_some hf
      apply find?_map_eq_of_fix
      · intro a
        split <;> rfl
      · intro a ha hpa
        rw [if_neg]
        intro hbeq
        have hid : a.id = found.id := by simpa using hbeq
        have haf : a = found := List.inj_on_of_nodup_map hids ha hfmem hid
        have hapid : a.productId = pid2 := by simpa using hpa
        rw [haf, hfpid] at hapid
        exact hne hapid.symm

theorem mem_decrementFirstLog_of_pid_ne (logs : List InventoryLog)
    (pid : String) (q : Int) (hids : (logs.map InventoryLog.id).Nodup)
    (l : InventoryLog) (hl : l ∈ logs) (hlp : l.productId ≠ pid) :
    l ∈ decrementFirstLog logs pid q := by
  unfold decrementFirstLog
  cases hf : logs.find? (fun lg => lg.productId == pid) with
  | none => exact hl
  | some found =>
      have hfmem : found ∈ logs := List.mem_of_find?_eq_some hf
      have hfpid : found.productId = pid := by
        simpa using List.find?_some hf
      refine List.mem_map.mpr ⟨l, hl, ?_⟩
      rw [if_neg]
      intro hbeq
      have hid : l.id = found.id := by simpa using hbeq
      have hlf : l = found := List.inj_on_of_nodup_map hids hl hfmem hid
      rw [hlf, hfpid] at hlp
      exact hlp rfl

theorem decrementFirstLog_updates_found (logs : List InventoryLog)
    (pid : String) (q : Int) (found : InventoryLog)
    (hf : logs.find? (fun lg => lg.productId == pid) = some found) :
    { found with quantity := found.quantity - q } ∈ decrementFirstLog logs pid q := by
  unfold decrementFirstLog
  rw [hf]
  exact List.mem_map.mpr
    ⟨found, List.mem_of_find?_eq_some hf, by rw [if_pos (beq_self_eq_true found.id)]⟩

theorem applyInventoryDecrements_nil (logs : List InventoryLog) :
    applyInventoryDecrements logs [] = logs := rfl

theorem applyInventoryDecrements_cons (logs : List InventoryLog)
    (i : CartItem) (t : List CartItem) :
    applyInventoryDecrements logs (i :: t)
      = applyInventoryDecrements (decrementFirstLog logs i.productId i.quantity) t :=
  rfl

theorem mem_applyInventoryDecrements_of_not_mem (items : List CartItem)
    (logs : List InventoryLog) (hids : (logs.map InventoryLog.id).Nodup)
    (l : InventoryLog) (hl : l ∈ logs)
    (hnp : l.productId ∉ items.map CartItem.productId) :
    l ∈ applyInventoryDecrements logs items := by
  induction items generalizing logs with
  | nil => exact hl
  | cons i t ih =>
      rw [applyInventoryDecrements_cons]
      rw [List.map_cons] at hnp
      have hne : l.productId ≠ i.productId := fun he =>
        hnp (he ▸ List.mem_cons_self i.productId (t.map CartItem.productId))
      exact ih (decrementFirstLog logs i.productId i.quantity)
        (decrementFirstLog_nodup_id logs i.productId i.quantity hids)
        (mem_decrementFirstLog_of_pid_ne logs i.productId i.quantity hids l hl hne)
        (fun hmem => hnp (List.mem_cons_of_mem _ hmem))

theorem applyInventoryDecrements_updates_found (items : List CartItem)
    (logs : List InventoryLog) (hids : (logs.map InventoryLog.id).Nodup)
    (hpids : (items.map CartItem.productId).Nodup)
    (i : CartItem) (hi : i ∈ items) (l : InventoryLog)
    (hf : logs.find? (fun lg => lg.productId == i.productId) = some l) :
    { l with quantity := l.quantity - i.quantity }
      ∈ applyInventoryDecrements logs items := by
  induction items generalizing logs with
  | nil => cases hi
  | cons j t ih =>
      rw [applyInventoryDecrements_cons]
      rw [List.map_cons] at hpids
      rcases List.mem_cons.mp hi with heq | hit
      · subst heq
        have hlpid : l.productId = i.productId := by
          simpa using List.find?_some hf
        apply mem_applyInventoryDecrements_of_not_mem t
          (decrementFirstLog logs i.productId i.quantity)
          (decrementFirstLog_nodup_id logs i.productId i.quantity hids)
          _ (decrementFirstLog_updates_found logs i.productId i.quantity l hf)
        show l.productId ∉ t.map CartItem.productId
        rw [hlpid]
        exact (List.nodup_cons.mp hpids).1
      · have hjne : i.productId ≠ j.productId := by
          intro he
          exact (List.nodup_cons.mp hpids).1
            (he ▸ List.mem_map.mpr ⟨i, hit, rfl⟩)
        apply ih (decrementFirstLog logs j.productId j.quantity)
          (decrementFirstLog_nodup_id logs j.productId j.quantity hids)
          (List.nodup_cons.mp hpids).2 hit
        rw [find?_decrementFirstLog_ne logs j.productId i.productId j.quantity hids hjne]
        exact hf

theorem checkout_ok_exists (db : Db) (coupons : List Coupon)
    (couponCode : Option String) (now : Int)
    (hne : db.cart.items ≠ [])
    (hstock : outOfStockItems db.cart.items = []) :
    ∃ d, checkout db coupons couponCode now = .ok (finishCheckout db d) := by
  have h1 : db.cart.items.isEmpty = false := by
    simp [List.isEmpty_iff, hne]
  have h2 : (outOfStockItems db.cart.items).isEmpty = true := by
    rw [List.isEmpty_iff]
    exact hstock
  unfold checkout
  rw [h1, h2]
  simp only [Bool.false_eq_true, if_false, if_true]
  cases couponCode with
  | none => exact ⟨0, rfl⟩
  | some code =>
      by_cases hcode : code = ""
      · exact ⟨0, by simp [hcode]⟩
      · cases hf : coupons.find? (couponMatches code now (cartSubtotal db.cart.items)) with
        | none => exact ⟨0, by simp [if_neg hcode, hf]⟩
        | some c =>
            refine ⟨couponDiscount c (cartSubtotal db.cart.items), ?_⟩
            simp only [if_neg hcode, hf]
            rw [minPurchaseBlocks_eq_false_of_matches _ _ _ _ (List.find?_some hf)]
            simp

/-- C1 (amended): a checkout of a non-empty cart with sufficient stock
succeeds and, in one transaction, creates the order with status PENDING and
one OrderItem per cart line capturing the current product price, deletes all
cart line items, leaves the stored cart total unchanged (it is not reset to
zero), performs no write to the product table (product stock is not
decremented), and decrements the quantity of the first inventory log row of
each ordered product by the ordered quantity, leaving logs of products
outside the cart untouched. -/
theorem checkout_transaction_effects (db : Db) (coupons : List Coupon)
    (couponCode : Option String) (now : Int)
    (hne : db.cart.items ≠ [])
    (hstock : outOfStockItems db.cart.items = [])
    (hids : (db.logs.map InventoryLog.id).Nodup)
    (hpids : (db.cart.items.map CartItem.productId).Nodup) :
    ∃ r, checkout db coupons couponCode now = .ok r
      ∧ r.order.status = OrderStatus.PENDING
      ∧ r.order.items = db.cart.items.map (fun i =>
          { productId := i.productId, quantity := i.quantity,
            price := i.product.price })
      ∧ r.db.cart.items = []
      ∧ r.db.cart.total = db.cart.total
      ∧ r.db.products = db.products
      ∧ (∀ i ∈ db.cart.items, ∀ l,
            db.logs.find? (fun lg => lg.productId == i.productId) = some l →
              { l with quantity := l.quantity - i.quantity } ∈ r.db.logs)
      ∧ (∀ l ∈ db.logs, l.productId ∉ db.cart.items.map CartItem.productId →
            l ∈ r.db.logs) := by
  obtain ⟨d, hd⟩ := checkout_ok_exists db coupons couponCode now hne hstock
  refine ⟨finishCheckout db d, hd, rfl, rfl, rfl, rfl, rfl, ?_, ?_⟩
  · intro i hi l hf
    exact applyInventoryDecrements_updates_found db.cart.items db.logs hids hpids i hi l hf
  · intro l hl hnp
    exact mem_applyInventoryDecrements_of_not_mem db.cart.items db.logs hids l hl hnp

/-- Witness for C1 (amended) at the 2-units-of-p1 scenario. -/
theorem checkout_transaction_effects_witness :
    ∃ r, checkout exDb [] none 0 = .ok r
      ∧ r.order.status = OrderStatus.PENDING
      ∧ r.order.items = exDb.cart.items.map (fun i =>
          { productId := i.productId, quantity := i.quantity,
            price := i.product.price })
      ∧ r.db.cart.items = []
      ∧ r.db.cart.total = exDb.cart.total
      ∧ r.db.products = exDb.products
      ∧ (∀ i ∈ exDb.cart.items, ∀ l,
            exDb.logs.find? (fun lg => lg.productId == i.productId) = some l →
              { l with quantity := l.quantity - i.quantity } ∈ r.db.logs)
      ∧ (∀ l ∈ exDb.logs, l.productId ∉ exDb.cart.items.map CartItem.productId →
            l ∈ r.db.logs) :=
  checkout_transaction_effects exDb [] none 0
    (by decide) (by decide) (by decide) (by decide)

/-- Counterexample to C1 as stated: at the concrete sufficient-stock
scenario the checkout succeeds, yet the stored cart total remains 200
instead of being reset to zero, and the product table (holding stock 5) is
not written at all, so no product stock is decremented. -/
theorem checkout_cart_total_not_zeroed :
    ∃ r, checkout exDb [] none 0 = .ok r
      ∧ r.db.cart.total = 200
      ∧ r.db.cart.total ≠ 0
      ∧ r.db.products = exDb.products
      ∧ exDb.products.map Product.stock = [5] := by
  refine ⟨finishCheckout exDb 0, rfl, rfl, by decide, rfl, rfl⟩

/-- C4 (amended): the created order always carries tax 0 and shipping fee 0
(both are hard-coded constants in the handler, not a 10 percent tax), and
its total equals subtotal minus discount plus shipping fee plus tax. -/
theorem checkout_total_formula (db : Db) (coupons : List Coupon)
    (couponCode : Option String) (now : Int) (r : CheckoutResult)
    (h : checkout db coupons couponCode now = .ok r) :
    r.order.tax = 0 ∧ r.order.shippingFee = 0
      ∧ r.order.total
          = r.order.subtotal - r.order.discount + r.order.shippingFee
              + r.order.tax := by
  have hex : ∃ d, r = finishCheckout db d := by
    unfold checkout at h
    split at h
    · exact absurd h (by simp)
    · split at h
      · split at h
        · exact ⟨0, (Except.ok.inj h).symm⟩
        · split at h
          · exact ⟨0, (Except.ok.inj h).symm⟩
          · split at h
            · exact ⟨0, (Except.ok.inj h).symm⟩
            · split at h
              · exact absurd h (by simp)
              · exact ⟨_, (Except.ok.inj h).symm⟩
      · exact absurd h (by simp)
  obtain ⟨d, rfl⟩ := hex
  exact ⟨rfl, rfl, rfl⟩

/-- Witness for C4 (amended) at the concrete scenario. -/
theorem checkout_total_formula_witness :
    (finishCheckout exDb 0).order.tax = 0
      ∧ (finishCheckout exDb 0).order.shippingFee = 0
      ∧ (finishCheckout exDb 0).order.total
          = (finishCheckout exDb 0).order.subtotal
              - (finishCheckout exDb 0).order.discount
              + (finishCheckout exDb 0).order.shippingFee
              + (finishCheckout exDb 0).order.tax :=
  checkout_total_formula exDb [] none 0 (finishCheckout exDb 0) rfl

/-- Counterexample to C4 as stated: checkout of the cart holding 2 units of
the product priced 100 with no coupon yields subtotal 200 but tax 0 and
total 200, not tax 20 and total 220 as a 10 percent tax would demand. -/
theorem checkout_example_tax_is_zero :
    ∃ r, checkout exDb [] none 0 = .ok r
      ∧ r.order.subtotal = 200
      ∧ r.order.discount = 0
      ∧ r.order.tax = 0
      ∧ r.order.total = 200
      ∧ r.order.tax ≠ (r.order.subtotal - r.order.discount) * (10 / 100)
      ∧ r.order.total ≠ 220 := by
  refine ⟨finishCheckout exDb 0, rfl, ?_, rfl, rfl, ?_, ?_, ?_⟩
  · show cartSubtotal exDb.cart.items = 200
    norm_num [cartSubtotal, exDb, exCart, exItem, exProduct]
  · show cartSubtotal exDb.cart.items - 0 + 0 + 0 = 200
    norm_num [cartSubtotal, exDb, exCart, exItem, exProduct]
  · show (0 : ℚ) ≠ (cartSubtotal exDb.cart.items - 0) * (10 / 100)
    norm_num [cartSubtotal, exDb, exCart, exItem, exProduct]
  · show cartSubtotal exDb.cart.items - 0 + 0 + 0 ≠ 220
    norm_num [cartSubtotal, exDb, exCart, exItem, exProduct]

/-- C5: on a checkout that passes the cart and stock validation, a matched
PERCENTAGE coupon of value v on a truthy (non-empty) code yields discount
subtotal times v over 100, a matched FIXED coupon of value v yields the
minimum of v and the subtotal, a truthy code the lookup does not match
(wrong code, inactive, or expired) yields discount 0 with the checkout
still succeeding, and an empty couponCode string is falsy and skips the
coupon block entirely, also yielding discount 0. -/
theorem checkout_coupon_discount_rules (db : Db) (coupons : List Coupon)
    (code : String) (now : Int)
    (hne : db.cart.items ≠ [])
    (hstock : outOfStockItems db.cart.items = []) :
    (∀ c, code ≠ "" →
        coupons.find? (couponMatches code now (cartSubtotal db.cart.items)) = some c →
        c.discountType = DiscountType.PERCENTAGE →
        ∃ r, checkout db coupons (some code) now = .ok r
          ∧ r.order.discount = cartSubtotal db.cart.items * c.discountValue / 100)
      ∧ (∀ c, code ≠ "" →
          coupons.find? (couponMatches code now (cartSubtotal db.cart.items)) = some c →
          c.discountType = DiscountType.FIXED →
          ∃ r, checkout db coupons (some code) now = .ok r
            ∧ r.order.discount = min c.discountValue (cartSubtotal db.cart.items))
      ∧ (code ≠ "" →
          coupons.find? (couponMatches code now (cartSubtotal db.cart.items)) = none →
          ∃ r, checkout db coupons (some code) now = .ok r
            ∧ r.order.discount = 0)
      ∧ (code = "" →
          ∃ r, checkout db coupons (some code) now = .ok r
            ∧ r.order.discount = 0) := by
  have h1 : db.cart.items.isEmpty = false := by
    simp [List.isEmpty_iff, hne]
  have h2 : (outOfStockItems db.cart.items).isEmpty = true := by
    rw [List.isEmpty_iff]
    exact hstock
  have hck : ∀ c, code ≠ "" →
      coupons.find? (couponMatches code now (cartSubtotal db.cart.items)) = some c →
      checkout db coupons (some code) now
        = .ok (finishCheckout db (couponDiscount c (cartSubtotal db.cart.items))) := by
    intro c hcode hf
    unfold checkout
    rw [h1, h2]
    simp only [Bool.false_eq_true, if_false, if_true, if_neg hcode, hf]
    rw [minPurchaseBlocks_eq_false_of_matches _ _ _ _ (List.find?_some hf)]
    simp
  refine ⟨?_, ?_, ?_, ?_⟩
  · intro c hcode hf hty
    refine ⟨finishCheckout db (couponDiscount c (cartSubtotal db.cart.items)),
      hck c hcode hf, ?_⟩
    show couponDiscount c (cartSubtotal db.cart.items) = _
    rw [couponDiscount, if_pos hty]
  · intro c hcode hf hty
    refine ⟨finishCheckout db (couponDiscount c (cartSubtotal db.cart.items)),
      hck c hcode hf, ?_⟩
    show couponDiscount c (cartSubtotal db.cart.items) = _
    rw [couponDiscount, if_neg (by rw [hty]; intro hc; exact DiscountType.noConfusion hc)]
  · intro hcode hf
    refine ⟨finishCheckout db 0, ?_, rfl⟩
    unfold checkout
    rw [h1, h2]
    simp only [Bool.false_eq_true, if_false, if_true, if_neg hcode, hf]
  · intro hcode
    refine ⟨finishCheckout db 0, ?_, rfl⟩
    unfold checkout
    rw [h1, h2]
    simp only [Bool.false_eq_true, if_false, if_true, hcode, if_true]

/-- Witness for C5 at the percentage coupon scenario. -/
theorem checkout_coupon_discount_rules_witness :
    ∃ r, checkout exDb [exCouponPct] (some "SAVE10") 0 = .ok r
      ∧ r.order.discount
          = cartSubtotal exDb.cart.items * exCouponPct.discountValue / 100 :=
  (checkout_coupon_discount_rules exDb [exCouponPct] "SAVE10" 0
      (by decide) (by decide)).1
    exCouponPct (by decide) (by decide) (by decide)

end Checkout

namespace CartApi

theorem foldl_itemsTotal (items : List CartItem) (a : ℚ) :
    items.foldl (fun sum item => sum + item.priceAtTime * (item.quantity : ℚ)) a
      = a + (items.map (fun it => it.priceAtTime * (it.quantity : ℚ))).sum := by
  induction items generalizing a with
  | nil => simp
  | cons i t ih => simp [List.foldl_cons, ih, add_assoc]

theorem itemsTotal_eq_sum (items : List CartItem) :
    itemsTotal items
      = (items.map (fun it => it.priceAtTime * (it.quantity : ℚ))).sum := by
  unfold itemsTotal
  rw [foldl_itemsTotal, zero_add]

theorem map_update_of_id_not_mem (t : List CartItem) (target : CartItem)
    (newQty : Int) (h : target.id ∉ t.map CartItem.id) :
    t.map (fun it =>
        if it.id == target.id then { it with quantity := newQty } else it)
      = t := by
  induction t with
  | nil => rfl
  | cons a s ih =>
      rw [List.map_cons] at h
      rw [List.map_cons]
      have ha : ¬(a.id == target.id) = true := by
        intro hbeq
        exact h ((beq_iff_eq.mp hbeq) ▸ List.mem_cons_self a.id (s.map CartItem.id))
      rw [if_neg ha, ih (fun hm => h (List.mem_cons_of_mem _ hm))]

theorem itemsTotal_map_update (items : List CartItem) (target : CartItem)
    (newQty : Int) (hids : (items.map CartItem.id).Nodup) (hmem : target ∈ items) :
    itemsTotal (items.map (fun it =>
        if it.id == target.id then { it with quantity := newQty } else it))
      = itemsTotal items
          + target.priceAtTime * ((newQty : ℚ) - (target.quantity : ℚ)) := by
  induction items with
  | nil => cases hmem
  | cons a t ih =>
      rw [List.map_cons] at hids
      have hnin : a.id ∉ t.map CartItem.id := (List.nodup_cons.mp hids).1
      rcases List.mem_cons.mp hmem with heq | hmt
      · rw [heq]
        rw [List.map_cons, if_pos (beq_self_eq_true a.id),
          map_update_of_id_not_mem t a newQty hnin,
          itemsTotal_eq_sum, itemsTotal_eq_sum, List.map_cons, List.map_cons,
          List.sum_cons, List.sum_cons]
        ring
      · have hane : ¬(a.id == target.id) = true := by
          intro hbeq
          exact hnin ((beq_iff_eq.mp hbeq) ▸ List.mem_map.mpr ⟨target, hmt, rfl⟩)
        rw [List.map_cons, if_neg hane, itemsTotal_eq_sum, itemsTotal_eq_sum,
          List.map_cons, List.map_cons, List.sum_cons, List.sum_cons]
        have ht := ih (List.nodup_cons.mp hids).2 hmt
        rw [itemsTotal_eq_sum, itemsTotal_eq_sum] at ht
        rw [ht]
        ring

theorem itemsTotal_filter_ne_id (items : List CartItem) (target : CartItem)
    (hids : (items.map CartItem.id).Nodup) (hmem : target ∈ items) :
    itemsTotal (items.filter (fun it => it.id != target.id))
      = itemsTotal items - target.priceAtTime * (target.quantity : ℚ) := by
  induction items with
  | nil => cases hmem
  | cons a t ih =>
      rw [List.map_cons] at hids
      have hnin : a.id ∉ t.map CartItem.id := (List.nodup_cons.mp hids).1
      rcases List.mem_cons.mp hmem with heq | hmt
      · rw [heq]
        rw [List.filter_cons_of_neg (by simp),
          List.filter_eq_self.mpr (fun b hb => by
            simp only [bne_iff_ne, ne_eq, decide_eq_true_eq]
            intro hbeq
            exact hnin (hbeq ▸ List.mem_map.mpr ⟨b, hb, rfl⟩)),
          itemsTotal_eq_sum, itemsTotal_eq_sum, List.map_cons, List.sum_cons]
        ring
      · have hane : a.id ≠ target.id := by
          intro hbeq
          exact hnin (hbeq ▸ List.mem_map.mpr ⟨target, hmt, rfl⟩)
        rw [List.filter_cons_of_pos (by simp [hane]),
          itemsTotal_eq_sum, itemsTotal_eq_sum, List.map_cons, List.map_cons,
          List.sum_cons, List.sum_cons]
        have ht := ih (List.nodup_cons.mp hids).2 hmt
        rw [itemsTotal_eq_sum, itemsTotal_eq_sum] at ht
        rw [ht]
        ring

theorem itemsTotal_nonneg (items : List CartItem)
    (h : ∀ it ∈ items, 0 ≤ it.priceAtTime ∧ 0 ≤ it.quantity) :
    0 ≤ itemsTotal items := by
  rw [itemsTotal_eq_sum]
  apply List.sum_nonneg
  intro x hx
  rcases List.mem_map.mp hx with ⟨it, hit, rfl⟩
  exact mul_nonneg (h it hit).1 (by exact_mod_cast (h it hit).2)

theorem addToCart_new_keeps_total (cart : Cart) (p : Product) (quantity : Int)
    (newItemId : String) (c2 : Cart)
    (hinv : cart.total = itemsTotal cart.items)
    (hnew : cart.items.find? (fun it => it.productId == p.id) = none)
    (hok : addToCart cart (some p) quantity newItemId = .ok c2) :
    c2.total = itemsTotal c2.items := by
  simp only [addToCart, hnew] at hok
  split at hok
  · exact absurd hok (by simp)
  · have hc2 := (Except.ok.inj hok).symm
    subst hc2
    show cart.total + p.price * (quantity : ℚ)
      = itemsTotal (cart.items ++
          [{ id := newItemId, productId := p.id, quantity := quantity,
             priceAtTime := p.price, product := p }])
    rw [hinv, itemsTotal_eq_sum, itemsTotal_eq_sum, List.map_append,
      List.sum_append, List.map_singleton, List.sum_singleton]

theorem addToCart_existing_keeps_total (cart : Cart) (p : Product)
    (quantity : Int) (newItemId : String) (c2 : Cart) (existing : CartItem)
    (hinv : cart.total = itemsTotal cart.items)
    (hids : (cart.items.map CartItem.id).Nodup)
    (hfound : cart.items.find? (fun it => it.productId == p.id) = some existing)
    (hprice : existing.priceAtTime = p.price)
    (hok : addToCart cart (some p) quantity newItemId = .ok c2) :
    c2.total = itemsTotal c2.items := by
  simp only [addToCart, hfound] at hok
  split at hok
  · exact absurd hok (by simp)
  · split at hok
    · exact absurd hok (by simp)
    · have hc2 := (Except.ok.inj hok).symm
      subst hc2
      show cart.total + p.price * (quantity : ℚ)
        = itemsTotal (cart.items.map (fun it =>
            if it.id == existing.id then
              { it with quantity := existing.quantity + quantity }
            else it))
      rw [itemsTotal_map_update cart.items existing (existing.quantity + quantity)
          hids (List.mem_of_find?_eq_some hfound), hinv, hprice]
      push_cast
      ring

theorem removeFromCart_keeps_total (cart : Cart) (productId : String) (c2 : Cart)
    (hinv : cart.total = itemsTotal cart.items)
    (hids : (cart.items.map CartItem.id).Nodup)
    (hnonneg : ∀ it ∈ cart.items, 0 ≤ it.priceAtTime ∧ 0 ≤ it.quantity)
    (hok : removeFromCart cart productId = .ok c2) :
    c2.total = itemsTotal c2.items := by
  cases hfound : cart.items.find? (fun it => it.productId == productId) with
  | none =>
      simp only [removeFromCart, hfound] at hok
      exact absurd hok (by simp)
  | some cartItem =>
      simp only [removeFromCart, hfound] at hok
      have hc2 := (Except.ok.inj hok).symm
      subst hc2
      show max 0 (cart.total - cartItem.priceAtTime * (cartItem.quantity : ℚ))
        = itemsTotal (cart.items.filter (fun it => it.id != cartItem.id))
      rw [itemsTotal_filter_ne_id cart.items cartItem hids
          (List.mem_of_find?_eq_some hfound), hinv]
      apply max_eq_right
      rw [← itemsTotal_filter_ne_id cart.items cartItem hids
          (List.mem_of_find?_eq_some hfound)]
      apply itemsTotal_nonneg
      intro it hit
      exact hnonneg it (List.mem_of_mem_filter hit)

theorem updateCartQuantity_keeps_total (cart : Cart) (productId : String)
    (quantity : Int) (c2 : Cart)
    (hinv : cart.total = itemsTotal cart.items)
    (hids : (cart.items.map CartItem.id).Nodup)
    (hnonneg : ∀ it ∈ cart.items, 0 ≤ it.priceAtTime ∧ 0 ≤ it.quantity)
    (hok : updateCartQuantity cart productId quantity = .ok c2) :
    c2.total = itemsTotal c2.items := by
  simp only [updateCartQuantity] at hok
  split at hok
  · exact absurd hok (by simp)
  · cases hfound : cart.items.find? (fun it => it.productId == productId) with
    | none =>
        simp only [hfound] at hok
        exact absurd hok (by simp)
    | some cartItem =>
        simp only [hfound] at hok
        split at hok
        · exact removeFromCart_keeps_total cart productId c2 hinv hids hnonneg hok
        · split at hok
          · exact absurd hok (by simp)
          · have hc2 := (Except.ok.inj hok).symm
            subst hc2
            show cart.total + ((quantity : ℚ) - (cartItem.quantity : ℚ))
                * cartItem.priceAtTime
              = itemsTotal (cart.items.map (fun it =>
                  if it.id == cartItem.id then { it with quantity := quantity }
                  else it))
            rw [itemsTotal_map_update cart.items cartItem quantity hids
                (List.mem_of_find?_eq_some hfound), hinv]
            ring

/-- C3 (amended): the stored cart total keeps matching the sum of
priceAtTime times quantity over the line items across set-quantity,
remove-item and clear, and across add-item when the product is not yet in
the cart; adding more units of an already-present product preserves the
invariant only when the current product price equals the captured line
priceAtTime, because the handler adds current price times added quantity to
the total while the line keeps its original priceAtTime. -/
theorem cart_total_invariant_per_operation :
    (∀ (cart : Cart) (p : Product) (quantity : Int) (newItemId : String)
        (c2 : Cart),
        cart.total = itemsTotal cart.items →
        cart.items.find? (fun it => it.productId == p.id) = none →
        addToCart cart (some p) quantity newItemId = .ok c2 →
        c2.total = itemsTotal c2.items)
      ∧ (∀ (cart : Cart) (p : Product) (quantity : Int) (newItemId : String)
          (c2 : Cart) (existing : CartItem),
          cart.total = itemsTotal cart.items →
          (cart.items.map CartItem.id).Nodup →
          cart.items.find? (fun it => it.productId == p.id) = some existing →
          existing.priceAtTime = p.price →
          addToCart cart (some p) quantity newItemId = .ok c2 →
          c2.total = itemsTotal c2.items)
      ∧ (∀ (cart : Cart) (productId : String) (quantity : Int) (c2 : Cart),
          cart.total = itemsTotal cart.items →
          (cart.items.map CartItem.id).Nodup →
          (∀ it ∈ cart.items, 0 ≤ it.priceAtTime ∧ 0 ≤ it.quantity) →
          updateCartQuantity cart productId quantity = .ok c2 →
          c2.total = itemsTotal c2.items)
      ∧ (∀ (cart : Cart) (productId : String) (c2 : Cart),
          cart.total = itemsTotal cart.items →
          (cart.items.map CartItem.id).Nodup →
          (∀ it ∈ cart.items, 0 ≤ it.priceAtTime ∧ 0 ≤ it.quantity) →
          removeFromCart cart productId = .ok c2 →
          c2.total = itemsTotal c2.items)
      ∧ (∀ cart : Cart, (clearCart cart).total = itemsTotal (clearCart cart).items) :=
  ⟨fun cart p q nid c2 hinv hnew hok =>
      addToCart_new_keeps_total cart p q nid c2 hinv hnew hok,
    fun cart p q nid c2 ex hinv hids hfound hprice hok =>
      addToCart_existing_keeps_total cart p q nid c2 ex hinv hids hfound hprice hok,
    fun cart pid q c2 hinv hids hnn hok =>
      updateCartQuantity_keeps_total cart pid q c2 hinv hids hnn hok,
    fun cart pid c2 hinv hids hnn hok =>
      removeFromCart_keeps_total cart pid c2 hinv hids hnn hok,
    fun _ => rfl⟩

/-- Witness for C3 (amended): removing the only line of the concrete cart
yields a cart whose stored total matches its line sum. -/
theorem cart_total_invariant_per_operation_witness :
    (⟨"cart1", [], max 0 ((100 : ℚ) - 100 * ((1 : Int) : ℚ))⟩ : Cart).total
      = itemsTotal
          (⟨"cart1", [], max 0 ((100 : ℚ) - 100 * ((1 : Int) : ℚ))⟩ : Cart).items :=
  cart_total_invariant_per_operation.2.2.2.1 exCartFix "p1"
    ⟨"cart1", [], max 0 ((100 : ℚ) - 100 * ((1 : Int) : ℚ))⟩
    (by norm_num [itemsTotal, exCartFix, exCartProduct])
    (by decide) (by decide) rfl

/-- Counterexample to C3 as stated: the concrete cart satisfies the
invariant, yet adding one more unit of its product after the product price
dropped from 100 to 50 succeeds and leaves the stored total at 150 while the
line sum is 200. -/
theorem addToCart_existing_breaks_invariant :
    exCartFix.total = itemsTotal exCartFix.items
      ∧ addToCart exCartFix (some exCartProductCheap) 1 "i2"
          = .ok ⟨"cart1",
              [{ id := "i1", productId := "p1", quantity := 2, priceAtTime := 100,
                 product := exCartProduct }],
              100 + 50 * ((1 : Int) : ℚ)⟩
      ∧ (100 + 50 * ((1 : Int) : ℚ)
          ≠ itemsTotal
              [{ id := "i1", productId := "p1", quantity := 2, priceAtTime := 100,
                 product := exCartProduct }]) := by
  refine ⟨by norm_num [itemsTotal, exCartFix, exCartProduct], rfl, ?_⟩
  norm_num [itemsTotal, exCartProduct]

end CartApi

namespace Categories

theorem nthParent_none (cats : List Category) (k : Nat) :
    nthParent cats none k = none := by
  cases k <;> rfl

theorem nthParent_succ (cats : List Category) (pid : String) (k : Nat) :
    nthParent cats (some pid) (k + 1)
      = nthParent cats ((findCategory cats pid).bind Category.parentId) k := rfl

theorem walkFindsTarget_iff (cats : List Category) (target : String)
    (fuel : Nat) (start : Option String) :
    walkFindsTarget cats target start fuel = true ↔
      ∃ k, k < fuel ∧ nthParent cats start k = some target := by
  induction fuel generalizing start with
  | zero =>
      cases start with
      | none => simp [walkFindsTarget]
      | some pid => simp [walkFindsTarget]
  | succ n ih =>
      cases start with
      | none =>
          simp only [walkFindsTarget]
          constructor
          · intro h
            exact absurd h (by simp)
          · rintro ⟨k, _, hk⟩
            rw [nthParent_none] at hk
            exact absurd hk (by simp)
      | some pid =>
          simp only [walkFindsTarget]
          by_cases hpt : pid = target
          · subst hpt
            rw [if_pos (beq_self_eq_true pid)]
            constructor
            · intro _
              exact ⟨0, Nat.succ_pos n, rfl⟩
            · intro _
              rfl
          · rw [if_neg (by simpa using hpt), ih]
            constructor
            · rintro ⟨k, hk, hnth⟩
              exact ⟨k + 1, Nat.succ_lt_succ hk, by rw [nthParent_succ]; exact hnth⟩
            · rintro ⟨k, hk, hnth⟩
              cases k with
              | zero =>
                  exact absurd (Option.some.inj hnth) hpt
              | succ j =>
                  rw [nthParent_succ] at hnth
                  exact ⟨j, Nat.lt_of_succ_lt_succ hk, hnth⟩

/-- C6 (amended): a category update proposing the node itself as its new
parent is rejected with the distinct cannot-be-own-parent error (not the
CircularReference error), an update proposing a parent from which the upward
parent-chain walk reaches the node is rejected with CircularReference, both
rejections leave the category table unchanged, and an update whose parent
chain never reaches the node succeeds and reparents exactly the target
row. -/
theorem category_reparent_cycle_guard (cats : List Category)
    (categoryId : String) (fuel : Nat) :
    (findCategory cats categoryId ≠ none →
        patchCategoryParent cats categoryId (some categoryId) fuel
            = .error .ownParent
          ∧ patchResultTree cats categoryId (some categoryId) fuel = cats)
      ∧ (∀ pid, pid ≠ categoryId → pid ≠ "" →
          findCategory cats categoryId ≠ none →
          (∃ k, k < fuel ∧ nthParent cats (some pid) k = some categoryId) →
          patchCategoryParent cats categoryId (some pid) fuel
              = .error .circularReference
            ∧ patchResultTree cats categoryId (some pid) fuel = cats)
      ∧ (∀ pid, pid ≠ categoryId → pid ≠ "" →
          findCategory cats categoryId ≠ none →
          (∀ k, nthParent cats (some pid) k ≠ some categoryId) →
          patchCategoryParent cats categoryId (some pid) fuel
            = .ok (applyParent cats categoryId (some pid))) := by
  refine ⟨?_, ?_, ?_⟩
  · intro hfind
    cases hf : findCategory cats categoryId with
    | none => exact absurd hf hfind
    | some c =>
        have hpatch : patchCategoryParent cats categoryId (some categoryId) fuel
            = .error .ownParent := by
          unfold patchCategoryParent
          rw [hf]
          simp
        exact ⟨hpatch, by unfold patchResultTree; rw [hpatch]⟩
  · intro pid hne hempty hfind hreach
    cases hf : findCategory cats categoryId with
    | none => exact absurd hf hfind
    | some c =>
        have hwalk : walkFindsTarget cats categoryId (some pid) fuel = true :=
          (walkFindsTarget_iff cats categoryId fuel (some pid)).mpr hreach
        have hpatch : patchCategoryParent cats categoryId (some pid) fuel
            = .error .circularReference := by
          simp [patchCategoryParent, hf, hne, hempty, hwalk]
        exact ⟨hpatch, by unfold patchResultTree; rw [hpatch]⟩
  · intro pid hne hempty hfind hreach
    cases hf : findCategory cats categoryId with
    | none => exact absurd hf hfind
    | some c =>
        have hwalk : walkFindsTarget cats categoryId (some pid) fuel = false := by
          rw [Bool.eq_false_iff]
          intro htrue
          obtain ⟨k, _, hk⟩ := (walkFindsTarget_iff cats categoryId fuel (some pid)).mp htrue
          exact hreach k hk
        simp [patchCategoryParent, hf, hne, hwalk]

/-- Witness for C6 (amended): reparenting a onto its own child b is
rejected with CircularReference and leaves the table unchanged. -/
theorem category_reparent_cycle_guard_witness :
    patchCategoryParent exCatTable "a" (some "b") 3 = .error .circularReference
      ∧ patchResultTree exCatTable "a" (some "b") 3 = exCatTable :=
  (category_reparent_cycle_guard exCatTable "a" 3).2.1 "b"
    (by decide) (by decide) (by decide) ⟨1, by decide, by decide⟩

/-- Counterexample to C6 as stated: proposing the node itself as parent,
where the walk from the proposed parent reaches the node in zero steps, is
rejected with the cannot-be-own-parent error, which is a different error
from CircularReference. -/
theorem category_own_parent_distinct_error :
    patchCategoryParent exCatTable "a" (some "a") 3 = .error .ownParent
      ∧ nthParent exCatTable (some "a") 0 = some "a"
      ∧ CategoryError.ownParent ≠ CategoryError.circularReference :=
  ⟨rfl, rfl, by decide⟩

end Categories

namespace Orders

/-- C7 (amended): on a privileged status update, the bulk handler stamps
shippedAt on entering SHIPPED, deliveredAt on entering DELIVERED and
cancelledAt on entering CANCELLED, leaving each of the three fields
unchanged when its state is not being entered; the per-order handler stamps
shippedAt and deliveredAt the same way but never writes cancelledAt, even
on a CANCELLED transition. -/
theorem order_status_timestamps (o : OrderRecord) (status : OrderStatus)
    (tn carrier notes : Option String) (now : Int) :
    ((updateOrderStatusBulk o status tn carrier notes now).shippedAt
        = if status = OrderStatus.SHIPPED then some now else o.shippedAt)
      ∧ ((updateOrderStatusBulk o status tn carrier notes now).deliveredAt
          = if status = OrderStatus.DELIVERED then some now else o.deliveredAt)
      ∧ ((updateOrderStatusBulk o status tn carrier notes now).cancelledAt
          = if status = OrderStatus.CANCELLED then some now else o.cancelledAt)
      ∧ ((updateOrderStatusBulk o status tn carrier notes now).status = status)
      ∧ ((updateOrderStatusById o status tn carrier now).shippedAt
          = if status = OrderStatus.SHIPPED then some now else o.shippedAt)
      ∧ ((updateOrderStatusById o status tn carrier now).deliveredAt
          = if status = OrderStatus.DELIVERED then some now else o.deliveredAt)
      ∧ ((updateOrderStatusById o status tn carrier now).cancelledAt
          = o.cancelledAt)
      ∧ ((updateOrderStatusById o status tn carrier now).status = status) :=
  ⟨rfl, rfl, rfl, rfl, rfl, rfl, rfl, rfl⟩

/-- Counterexample to C7 as stated: the per-order handler moves the example
order to CANCELLED at time 5 yet leaves cancelledAt unset. -/
theorem order_cancelled_timestamp_not_set :
    (updateOrderStatusById exOrder OrderStatus.CANCELLED none none 5).status
        = OrderStatus.CANCELLED
      ∧ (updateOrderStatusById exOrder OrderStatus.CANCELLED none none 5).cancelledAt
        = none
      ∧ (updateOrderStatusById exOrder OrderStatus.CANCELLED none none 5).cancelledAt
        ≠ some 5 :=
  ⟨rfl, rfl, by decide⟩

end Orders

namespace Wishlist

/-- C8 (amended): every item of the wishlist retrieval mapping carries
discount round((originalPrice - price) / originalPrice * 100) exactly when
originalPrice > 0 and originalPrice > price — the current price may be 0 or
negative, there is no price > 0 requirement — and discount 0 in every other
case. -/
theorem wishlist_discount_characterization (items : List WishlistItem) :
    ∀ x ∈ itemsWithDiscount items,
      (x.1.product.originalPrice > 0 ∧ x.1.product.originalPrice > x.1.product.price →
        x.2 = round ((x.1.product.originalPrice - x.1.product.price)
                / x.1.product.originalPrice * 100))
      ∧ (¬(x.1.product.originalPrice > 0
            ∧ x.1.product.originalPrice > x.1.product.price) →
        x.2 = 0) := by
  intro x hx
  rcases List.mem_map.mp hx with ⟨item, _, rfl⟩
  constructor
  · intro h
    show productDiscount item.product = _
    rw [productDiscount, if_pos h]
  · intro h
    show productDiscount item.product = 0
    rw [productDiscount, if_neg h]

/-- Witness for C8 (amended) at the 50-to-40 sale product. -/
theorem wishlist_discount_characterization_witness :
    ((exSaleItem, productDiscount exSaleItem.product) : WishlistItem × ℤ).2
      = round ((exSaleItem.product.originalPrice - exSaleItem.product.price)
          / exSaleItem.product.originalPrice * 100) :=
  (wishlist_discount_characterization [exSaleItem]
      (exSaleItem, productDiscount exSaleItem.product)
      (List.mem_singleton.mpr rfl)).1 (by decide)

/-- Counterexample to C8 as stated: a product listed free (price 0) against
an original price of 50 gets discount 100 from the handler, while the claim
demands 0 whenever price is not positive. -/
theorem wishlist_free_product_discount_100 :
    exFreeProduct.price = 0
      ∧ productDiscount exFreeProduct = 100
      ∧ productDiscount exFreeProduct ≠ 0 := by
  refine ⟨rfl, ?_, ?_⟩
  · have h : ((50 : ℚ) - 0) / 50 * 100 = 100 := by norm_num
    show (if (50 : ℚ) > 0 ∧ (50 : ℚ) > 0 then
        round (((50 : ℚ) - 0) / 50 * 100) else 0) = 100
    rw [if_pos (by norm_num), h]
    norm_num
  · intro hzero
    have h : ((50 : ℚ) - 0) / 50 * 100 = 100 := by norm_num
    have h100 : productDiscount exFreeProduct = 100 := by
      show (if (50 : ℚ) > 0 ∧ (50 : ℚ) > 0 then
          round (((50 : ℚ) - 0) / 50 * 100) else 0) = 100
      rw [if_pos (by norm_num), h]
      norm_num
    rw [h100] at hzero
    exact absurd hzero (by decide)

end Wishlist

namespace Products

/-- C10: a product-creation payload whose price or stock is 0, or whose
name or categoryId is the empty string, is rejected by the truthiness guard
before the product store is touched, and the field-level error map omits the
entry for a price or stock supplied as 0 because those entries are only
added when the field is undefined. -/
theorem product_create_zero_rejected (d : ProductCreateData)
    (products : List ProductCreateData) :
    ((d.price = some 0 ∨ d.stock = some 0 ∨ d.name = some ""
        ∨ d.categoryId = some "") →
        (∃ e, createProduct products d = .error e)
          ∧ productsAfterCreate products d = products)
      ∧ (∀ e, validateProduct d = some e →
          (d.price = some 0 → e.price = none)
            ∧ (d.stock = some 0 → e.stock = none)) := by
  constructor
  · intro h
    have hguard : (jsTruthyString d.name && jsTruthyNumber d.price
        && jsTruthyNumber d.stock && jsTruthyString d.categoryId) = false := by
      rcases h with h1 | h1 | h1 | h1 <;>
        simp [h1, jsTruthyNumber, jsTruthyString]
    have hval : validateProduct d
        = some { name := if jsTruthyString d.name then none else some "Name is required"
                 price := if d.price = none then some "Price is required" else none
                 stock := if d.stock = none then some "Stock is required" else none
                 categoryId := if jsTruthyString d.categoryId then none
                               else some "Category is required" } := by
      unfold validateProduct
      rw [hguard]
      simp
    have hcreate : createProduct products d
        = .error
            { name := if jsTruthyString d.name then none else some "Name is required"
              price := if d.price = none then some "Price is required" else none
              stock := if d.stock = none then some "Stock is required" else none
              categoryId := if jsTruthyString d.categoryId then none
                            else some "Category is required" } := by
      unfold createProduct
      rw [hval]
    exact ⟨⟨_, hcreate⟩, by unfold productsAfterCreate; rw [hcreate]⟩
  · intro e he
    unfold validateProduct at he
    split at he
    · exact absurd he (by simp)
    · have he2 := (Option.some.inj he).symm
      subst he2
      constructor
      · intro hp
        show (if d.price = none then some "Price is required" else none) = none
        rw [if_neg (by rw [hp]; simp)]
      · intro hs
        show (if d.stock = none then some "Stock is required" else none) = none
        rw [if_neg (by rw [hs]; simp)]

/-- Witness for C10: the payload supplying price 0 is rejected with the
store unchanged, and its error map has no price entry. -/
theorem product_create_zero_rejected_witness :
    ((∃ e, createProduct [] exZeroPrice = .error e)
        ∧ productsAfterCreate [] exZeroPrice = [])
      ∧ (validateProduct exZeroPrice
            = some { name := none, price := none, stock := none,
                     categoryId := none } →
          (exZeroPrice.price = some 0 →
            (⟨none, none, none, none⟩ : ValidationErrors).price = none)
            ∧ (exZeroPrice.stock = some 0 →
              (⟨none, none, none, none⟩ : ValidationErrors).stock = none)) :=
  ⟨(product_create_zero_rejected exZeroPrice []).1 (Or.inl rfl),
    (product_create_zero_rejected exZeroPrice []).2
      ⟨none, none, none, none⟩⟩

end Products

end ECommerce
